import Mathlib

/-!
Verification of the AgentChat tutorial-notebook fragment.

The fragment defines, in Python notebook cells:
  - two example weather tools (quickstart and agents tutorial), each an
    f-string around the city argument;
  - a custom `UserProxyAgent` subclass of `BaseChatAgent` whose
    `on_messages` reads one line of operator input, returns a
    `StopMessage` when the input contains the substring "TERMINATE",
    and otherwise echoes the input as a `TextMessage`;
  - a quickstart call site that runs a one-agent `RoundRobinGroupChat`
    under `MaxMessageTermination(max_messages=2)`.

The embedding below models the blocking `input()` call by passing the
operator's line as an explicit argument, and models Python's substring
operator `in` by an explicit character-list search.
-/

/-- A chat message of the fragment: either a plain `TextMessage` or a
terminating `StopMessage`; both carry a content string and a source
(sender name) string, mirroring the library value objects used by the
notebooks. -/
inductive ChatMessage where
  | TextMessage (content : String) (source : String)
  | StopMessage (content : String) (source : String)
deriving DecidableEq

/-- The content string of a chat message. -/
def ChatMessage.content : ChatMessage → String
  | .TextMessage c _ => c
  | .StopMessage c _ => c

/-- The source string of a chat message. -/
def ChatMessage.source : ChatMessage → String
  | .TextMessage _ s => s
  | .StopMessage _ s => s

/-- The runtime type tags of chat messages, used to state the
`produced_message_types` declaration of the custom agent. -/
inductive MessageType where
  | TextMessageT
  | StopMessageT
deriving DecidableEq

/-- The runtime type tag of a chat message. -/
def ChatMessage.msgType : ChatMessage → MessageType
  | .TextMessage _ _ => MessageType.TextMessageT
  | .StopMessage _ _ => MessageType.StopMessageT

/-- The response wrapper returned by an agent turn: holds exactly one
chat message, as `autogen_agentchat.base.Response` does at the
fragment's call sites. -/
structure Response where
  chat_message : ChatMessage
deriving DecidableEq

/-- The cancellation token handed to `on_messages`; the fragment's code
accepts it and never reads it. -/
structure CancellationToken where
  cancelled : Bool
deriving DecidableEq

/-- Does `hay` start with `needle`? Character-level model of string
prefix comparison. -/
def charsHasPre : List Char → List Char → Bool
  | [], _ => true
  | _ :: _, [] => false
  | a :: as, b :: bs => a == b && charsHasPre as bs

/-- Does `hay` contain `needle` as a contiguous run? Character-level
model of Python's substring operator `in`. -/
def charsContains : List Char → List Char → Bool
  | needle, [] => charsHasPre needle []
  | needle, b :: bs => charsHasPre needle (b :: bs) || charsContains needle bs

/-- `strContains hay needle` models the Python expression
`needle in hay`: a case-sensitive contiguous-substring test. -/
def strContains (hay needle : String) : Bool :=
  charsContains needle.data hay.data

/-- The custom agent of the agents tutorial: `UserProxyAgent(name)`. -/
structure UserProxyAgent where
  name : String
deriving DecidableEq

/-- The description the constructor passes to
`super().__init__(name, "A human user.")`. -/
def UserProxyAgent.description (_ : UserProxyAgent) : String :=
  "A human user."

/-- The `produced_message_types` property of `UserProxyAgent`:
`return [TextMessage, StopMessage]`. -/
def UserProxyAgent.produced_message_types (_ : UserProxyAgent) : List MessageType :=
  [MessageType.TextMessageT, MessageType.StopMessageT]

/-- The `on_messages` method of `UserProxyAgent`.  The blocking
`input("Enter your response: ")` is modelled by the explicit
`user_input` argument; then the Python body is
`if "TERMINATE" in user_input: return Response(chat_message=StopMessage(
content="User has terminated the conversation.", source=self.name))`
else `return Response(chat_message=TextMessage(content=user_input,
source=self.name))`. -/
def UserProxyAgent.on_messages (a : UserProxyAgent)
    (_messages : List ChatMessage) (_cancellation_token : CancellationToken)
    (user_input : String) : Response :=
  if strContains user_input "TERMINATE" then
    Response.mk (ChatMessage.StopMessage "User has terminated the conversation." a.name)
  else
    Response.mk (ChatMessage.TextMessage user_input a.name)

/-- The quickstart weather tool:
`return f"The weather in {city} is 73 degrees and Sunny."`. -/
def Quickstart.get_weather (city : String) : String :=
  "The weather in " ++ city ++ " is 73 degrees and Sunny."

/-- The agents-tutorial weather tool:
`return f"The weather in {city} is 72 degrees and Sunny."`. -/
def Tutorial.get_weather (city : String) : String :=
  "The weather in " ++ city ++ " is 72 degrees and Sunny."

/-- An abstract team member for the quickstart run: a name and a
response function producing exactly one message per turn, as the
glossary describes an agent. -/
structure TeamAgent where
  name : String
  respond : List ChatMessage → ChatMessage

/-- Modelled from the spec: the loop of `RoundRobinGroupChat.run` under
`MaxMessageTermination`, whose implementation is not part of this
fragment.  Agents take turns in round-robin order, each appending the
one message it produces to the transcript; before every turn the
termination condition is consulted, and the run stops as soon as the
transcript holds `maxMessages` messages.  The fuel argument bounds the
number of turns; since every turn grows the transcript, `maxMessages`
turns always suffice. -/
def runChatAux : Nat → List TeamAgent → Nat → Nat → List ChatMessage → List ChatMessage
  | 0, _, _, _, transcript => transcript
  | Nat.succ fuel, agents, idx, maxMessages, transcript =>
    if maxMessages ≤ transcript.length then transcript
    else
      match agents.get? (idx % agents.length) with
      | none => transcript
      | some a => runChatAux fuel agents (idx + 1) maxMessages (transcript ++ [a.respond transcript])

/-- Modelled from the spec: `RoundRobinGroupChat([...],
termination_condition=MaxMessageTermination(max_messages=n)).run(task)`,
whose implementation is not part of this fragment.  The task text is
entered into the transcript as a text message attributed to "user",
then the agents run round-robin until the message cap stops them; the
transcript of all exchanged messages is returned. -/
def RoundRobinGroupChat.run (agents : List TeamAgent) (maxMessages : Nat)
    (task : String) : List ChatMessage :=
  runChatAux maxMessages agents 0 maxMessages [ChatMessage.TextMessage task "user"]

/- ### Helper lemmas about the substring model -/

/-- Appending anything after a list keeps it a prefix. -/
theorem charsHasPre_self_append (a b : List Char) :
    charsHasPre a (a ++ b) = true := by
  induction a with
  | nil => rfl
  | cons c cs ih => simp [charsHasPre, ih]

/-- A prefix occurrence is an occurrence. -/
theorem charsContains_of_hasPre (n h : List Char)
    (hp : charsHasPre n h = true) : charsContains n h = true := by
  cases h with
  | nil => simpa [charsContains] using hp
  | cons b bs => simp [charsContains, hp]

/-- An occurrence survives prepending more characters. -/
theorem charsContains_append_left (pre n rest : List Char)
    (hc : charsContains n rest = true) :
    charsContains n (pre ++ rest) = true := by
  induction pre with
  | nil => simpa using hc
  | cons p ps ih =>
    simp only [List.cons_append, charsContains]
    simp [ih]

/-- Concatenation of strings concatenates their character data. -/
theorem strData_append (a b : String) : (a ++ b).data = a.data ++ b.data := by
  rfl

/-- Any string of the shape `pre ++ mid ++ suf` contains `mid`. -/
theorem strContains_sandwich (pre mid suf : String) :
    strContains (pre ++ mid ++ suf) mid = true := by
  unfold strContains
  rw [strData_append, strData_append, List.append_assoc]
  exact charsContains_append_left pre.data mid.data (mid.data ++ suf.data)
    (charsContains_of_hasPre mid.data (mid.data ++ suf.data)
      (charsHasPre_self_append mid.data suf.data))

/- ### Claims -/

/-- Claim C1: for every operator input line `u` that does not contain
the substring "TERMINATE", and for every sequence of prior messages
(and any cancellation token), `UserProxyAgent.on_messages` returns a
`Response` whose chat message is a plain `TextMessage` with content
equal to `u` verbatim and source equal to the agent's configured
name. -/
theorem userProxy_echoes_input (a : UserProxyAgent)
    (msgs : List ChatMessage) (tok : CancellationToken) (u : String)
    (h : strContains u "TERMINATE" = false) :
    a.on_messages msgs tok u =
      Response.mk (ChatMessage.TextMessage u a.name) := by
  unfold UserProxyAgent.on_messages
  rw [h]
  simp

/-- Concrete instance of the echo behaviour at the notebook's own
input "Hello there". -/
theorem userProxy_echoes_input_witness :
    strContains "Hello there" "TERMINATE" = false ∧
      (UserProxyAgent.mk "user_proxy_agent").on_messages []
          (CancellationToken.mk false) "Hello there" =
        Response.mk (ChatMessage.TextMessage "Hello there" "user_proxy_agent") :=
  ⟨by decide,
    userProxy_echoes_input (UserProxyAgent.mk "user_proxy_agent") []
      (CancellationToken.mk false) "Hello there" (by decide)⟩

/-- Claim C2: for every operator input line `u` that contains the
substring "TERMINATE", and for every sequence of prior messages (and
any cancellation token), `UserProxyAgent.on_messages` returns a
`Response` whose chat message is a `StopMessage` with content exactly
"User has terminated the conversation." and source equal to the
agent's configured name. -/
theorem userProxy_terminates (a : UserProxyAgent)
    (msgs : List ChatMessage) (tok : CancellationToken) (u : String)
    (h : strContains u "TERMINATE" = true) :
    a.on_messages msgs tok u =
      Response.mk (ChatMessage.StopMessage
        "User has terminated the conversation." a.name) := by
  unfold UserProxyAgent.on_messages
  rw [h]
  simp

/-- Concrete instance of the termination behaviour at the input
"TERMINATE". -/
theorem userProxy_terminates_witness :
    strContains "TERMINATE" "TERMINATE" = true ∧
      (UserProxyAgent.mk "user_proxy_agent").on_messages []
          (CancellationToken.mk false) "TERMINATE" =
        Response.mk (ChatMessage.StopMessage
          "User has terminated the conversation." "user_proxy_agent") :=
  ⟨by decide,
    userProxy_terminates (UserProxyAgent.mk "user_proxy_agent") []
      (CancellationToken.mk false) "TERMINATE" (by decide)⟩

/-- Claim C3: for every city name string `c`, each example weather
function returns exactly its fixed f-string around `c`: a string that
contains `c` and ends with the function's fixed temperature/condition
phrase (" is 73 degrees and Sunny." in the quickstart, " is 72 degrees
and Sunny." in the agents tutorial). -/
theorem get_weather_contains_city_and_fixed_phrase (c : String) :
    Quickstart.get_weather c = ("The weather in " ++ c) ++ " is 73 degrees and Sunny."
      ∧ strContains (Quickstart.get_weather c) c = true
      ∧ Tutorial.get_weather c = ("The weather in " ++ c) ++ " is 72 degrees and Sunny."
      ∧ strContains (Tutorial.get_weather c) c = true := by
  refine ⟨rfl, ?_, rfl, ?_⟩
  · exact strContains_sandwich "The weather in " c " is 73 degrees and Sunny."
  · exact strContains_sandwich "The weather in " c " is 72 degrees and Sunny."

/-- Claim C4: in the quickstart scenario — one agent in a round-robin
team, termination capped at 2 messages — running a task yields a
transcript of exactly 2 messages: the task text attributed to "user"
followed by the one reply that the agent produced from it, and no
third message. -/
theorem quickstart_run_two_messages (a : TeamAgent) (task : String) :
    RoundRobinGroupChat.run [a] 2 task =
        [ChatMessage.TextMessage task "user",
          a.respond [ChatMessage.TextMessage task "user"]]
      ∧ (RoundRobinGroupChat.run [a] 2 task).length = 2 := by
  constructor
  · rfl
  · rfl

/-- Claim C5: every call to `UserProxyAgent.on_messages` returns
exactly one `Response` wrapping exactly one chat message. -/
theorem userProxy_exactly_one_message (a : UserProxyAgent)
    (msgs : List ChatMessage) (tok : CancellationToken) (u : String) :
    ∃! m : ChatMessage, a.on_messages msgs tok u = Response.mk m := by
  refine ⟨(a.on_messages msgs tok u).chat_message, rfl, ?_⟩
  intro m hm
  exact (congrArg Response.chat_message hm).symm

/-- Claim C6: every chat message this fragment's code constructs —
in particular the one returned by `UserProxyAgent.on_messages` — has
both a content field and a source field present as strings (here: the
source is the agent's name, and the content is either the echoed input
or the fixed termination string). -/
theorem userProxy_message_fields_present (a : UserProxyAgent)
    (msgs : List ChatMessage) (tok : CancellationToken) (u : String) :
    ∃ content source : String,
      ((a.on_messages msgs tok u).chat_message = ChatMessage.TextMessage content source
        ∨ (a.on_messages msgs tok u).chat_message = ChatMessage.StopMessage content source)
      ∧ (a.on_messages msgs tok u).chat_message.content = content
      ∧ (a.on_messages msgs tok u).chat_message.source = source := by
  unfold UserProxyAgent.on_messages
  by_cases h : strContains u "TERMINATE" = true
  · exact ⟨"User has terminated the conversation.", a.name, by simp [h, ChatMessage.content, ChatMessage.source]⟩
  · exact ⟨u, a.name, by simp [h, ChatMessage.content, ChatMessage.source]⟩

/-- Claim C7: `UserProxyAgent.on_messages` does not act on its
cancellation token: two runs with the same prior messages and the same
operator input but different tokens return identical responses. -/
theorem userProxy_ignores_token (a : UserProxyAgent)
    (msgs : List ChatMessage) (tok1 tok2 : CancellationToken) (u : String) :
    a.on_messages msgs tok1 u = a.on_messages msgs tok2 u :=
  rfl

/-- Claim C8: `UserProxyAgent.on_messages` ignores its messages
argument entirely: two runs with different prior-message sequences but
the same operator input return identical responses. -/
theorem userProxy_ignores_messages (a : UserProxyAgent)
    (msgs1 msgs2 : List ChatMessage) (tok : CancellationToken) (u : String) :
    a.on_messages msgs1 tok u = a.on_messages msgs2 tok u :=
  rfl

/-- Claim C9: `produced_message_types` returns exactly the list
`[TextMessage, StopMessage]`, and the message returned by
`on_messages` is always of one of those declared types. -/
theorem userProxy_produced_types_sound (a : UserProxyAgent)
    (msgs : List ChatMessage) (tok : CancellationToken) (u : String) :
    a.produced_message_types = [MessageType.TextMessageT, MessageType.StopMessageT]
      ∧ (a.on_messages msgs tok u).chat_message.msgType ∈ a.produced_message_types := by
  refine ⟨rfl, ?_⟩
  unfold UserProxyAgent.on_messages
  by_cases h : strContains u "TERMINATE" = true
  · simp [h, ChatMessage.msgType, UserProxyAgent.produced_message_types]
  · simp [h, ChatMessage.msgType, UserProxyAgent.produced_message_types]

/-- Claim C10: the termination-marker check is a case-sensitive
substring test: input whose only occurrence of the marker is in a
different letter case ("please terminate now") is echoed as a
`TextMessage`, while input containing the exact uppercase substring
"TERMINATE" even inside a longer word ("XTERMINATED") yields the
`StopMessage`. -/
theorem userProxy_marker_case_sensitive (a : UserProxyAgent)
    (msgs : List ChatMessage) (tok : CancellationToken) :
    a.on_messages msgs tok "please terminate now" =
        Response.mk (ChatMessage.TextMessage "please terminate now" a.name)
      ∧ a.on_messages msgs tok "XTERMINATED" =
        Response.mk (ChatMessage.StopMessage
          "User has terminated the conversation." a.name) := by
  constructor
  · rfl
  · rfl
